import Mathlib

-- Verification of the truemeter-api fraud-detection core.
-- Shallow embedding of src/app/prediction_service.py, src/app/models.py,
-- src/app/model_loader.py and src/app/config.py.
--
-- Machine-learning artifacts are opaque callables in the source; here they
-- are parameters (functions from the feature rows to a numeric prediction).
-- Exact arithmetic (ℚ for the float values that arise from integer inputs,
-- ℝ for transcendental math) replaces IEEE doubles.

-- ============================================================
-- Python numeric primitives
-- ============================================================

-- Python int(x) on a rational: truncation toward zero.
def pyIntQ (q : ℚ) : ℤ :=
  if 0 ≤ q then ⌊q⌋ else ⌈q⌉

-- Python int(x) on a real: truncation toward zero.
noncomputable def pyIntR (r : ℝ) : ℤ :=
  if 0 ≤ r then ⌊r⌋ else ⌈r⌉

-- Python round(x) without digits: round half to even, result an integer.
def pyRoundQ (q : ℚ) : ℤ :=
  if q - ⌊q⌋ < 1/2 then ⌊q⌋
  else if 1/2 < q - ⌊q⌋ then ⌊q⌋ + 1
  else if Even ⌊q⌋ then ⌊q⌋ else ⌊q⌋ + 1

-- int(np.expm1(x)) : the source's conversion of a log-space prediction to
-- integer kilometres (prediction_service.py line 213).
noncomputable def int_expm1 (x : ℝ) : ℤ :=
  pyIntR (Real.exp x - 1)

-- math.log1p
noncomputable def log1p (x : ℝ) : ℝ :=
  Real.log (1 + x)

-- ============================================================
-- config.py constants
-- ============================================================

def DEFAULT_FRAUD_THRESHOLD : ℚ := 1/2

-- 0.70 in the source
def SUSPICIOUS_RATIO_THRESHOLD : ℚ := 7/10

def MARKET_DIFF_THRESHOLD : ℤ := -30000

-- ============================================================
-- models.py : request / response schemas
-- ============================================================

structure CarInput where
  make : String
  model : String
  year : ℤ
  reported_km : ℤ
  fuelType : String
  gearbox : String
  horsepower : ℤ
  price : ℤ
  offerType : String
deriving DecidableEq

-- The reason strings of generate_reasons are fixed Bosnian templates around
-- interpolated numbers; each is embedded as a constructor carrying exactly
-- the interpolated values.
inductive Reason where
  | ratioSuspicious (percentage : ℤ) (expected_km : ℤ)
  | belowMarket (km_less : ℤ)
  | complexAnomaly
deriving DecidableEq

structure FraudCheckResponse where
  fraud_score : ℤ
  is_suspicious : Bool
  expected_km : ℤ
  reasons : List Reason
deriving DecidableEq

-- Pydantic validation of FraudCheckResponse (models.py lines 64-67):
-- fraud_score must lie in [0, 100] and expected_km must be non-negative;
-- a violating construction raises a ValidationError, embedded as none.
def mkFraudCheckResponse (fs : ℤ) (s : Bool) (ek : ℤ) (rs : List Reason) :
    Option FraudCheckResponse :=
  if 0 ≤ fs ∧ fs ≤ 100 ∧ 0 ≤ ek then some ⟨fs, s, ek, rs⟩ else none

-- ============================================================
-- prediction_service.py : feature rows and the pipeline
-- ============================================================

-- Columns of the regression input DataFrame (lines 198-209).
structure RegInput where
  year : ℤ
  price : ℤ
  horsepower : ℤ
  make : String
  model : String
  fuelType : String
  gearbox : String
  offerType : String
  age : ℤ
  age_squared : ℤ

-- Columns of the classification input DataFrame (lines 221-226).
-- The source column named for the reported/expected ratio is the first field.
structure ClassInput where
  ratio_feature : ℚ
  age : ℤ
  market_km_diff : ℤ
  log_diff : ℝ

-- smart_ratio = car.reported_km / max(1, expected_km)   (line 216)
def smartRatioOf (reported_km expected_km : ℤ) : ℚ :=
  (reported_km : ℚ) / ((max 1 expected_km : ℤ) : ℚ)

-- market_km_diff = car.reported_km - expected_km   (line 217)
def market_km_diff_of (reported_km expected_km : ℤ) : ℤ :=
  reported_km - expected_km

-- fraud_score = int(round(fraud_prob * 100))   (line 233)
def fraud_score_of (fraud_prob : ℚ) : ℤ :=
  pyRoundQ (fraud_prob * 100)

-- is_suspicious = fraud_prob >= threshold   (line 236)
def is_suspicious_of (fraud_prob threshold : ℚ) : Bool :=
  fraud_prob ≥ threshold

-- generate_reasons (lines 121-161): builds the list of explanation strings.
-- percentage = int(smart_ratio * 100) is Python truncation (line 144);
-- abs(market_km_diff) is the absolute shortfall (line 152).
def generate_reasons (sr : ℚ) (md ek : ℤ) (s : Bool) : List Reason :=
  let reasons : List Reason := []
  let reasons := if sr < SUSPICIOUS_RATIO_THRESHOLD
    then reasons ++ [Reason.ratioSuspicious (pyIntQ (sr * 100)) ek]
    else reasons
  let reasons := if md < MARKET_DIFF_THRESHOLD
    then reasons ++ [Reason.belowMarket |md|]
    else reasons
  if reasons.isEmpty && s then reasons ++ [Reason.complexAnomaly] else reasons

-- check_fraud (lines 163-252), after the models-loaded guard: the regression
-- and classification artifacts are the opaque parameters regPredict and
-- classProba, the threshold comes from the model manager, current_year from
-- pd.Timestamp.now().  Pydantic response validation is the final step.
noncomputable def check_fraud (regPredict : RegInput → ℝ)
    (classProba : ClassInput → ℚ) (threshold : ℚ) (current_year : ℤ)
    (car : CarInput) : Option FraudCheckResponse :=
  let age := max 1 (current_year - car.year)
  let age_squared := age ^ 2
  let reg_input : RegInput :=
    ⟨car.year, car.price, car.horsepower, car.make, car.model,
     car.fuelType, car.gearbox, car.offerType, age, age_squared⟩
  let predicted_log := regPredict reg_input
  let expected_km := int_expm1 predicted_log
  let sr := smartRatioOf car.reported_km expected_km
  let md := market_km_diff_of car.reported_km expected_km
  let ld := log1p (car.reported_km : ℝ) - predicted_log
  let class_input : ClassInput := ⟨sr, age, md, ld⟩
  let fraud_prob := classProba class_input
  let fs := fraud_score_of fraud_prob
  let susp := is_suspicious_of fraud_prob threshold
  let reasons := generate_reasons sr md expected_km susp
  mkFraudCheckResponse fs susp expected_km reasons

-- ============================================================
-- model_loader.py : ModelManager
-- ============================================================

-- A loaded artifact is opaque to the core; only its presence matters.
structure Artifact where
  tag : ℕ
deriving DecidableEq

-- Outcome of one joblib.load call: a value, a FileNotFoundError, or any
-- other exception (both carrying the exception text).
inductive LoadResult (α : Type) where
  | ok (value : α)
  | fileNotFound (msg : String)
  | failed (msg : String)

-- The deserialized classifier dictionary: the pipeline under key 'pipeline'
-- (a missing key raises KeyError) and the optional 'threshold' entry read
-- with dict.get.
structure ClassifierBundle where
  pipeline : Option Artifact
  threshold : Option ℚ

structure ModelManager where
  regressor_model : Option Artifact
  classifier_model : Option Artifact
  fraud_threshold : ℚ

-- ModelManager.__init__ (lines 21-25)
def initModelManager : ModelManager :=
  ⟨none, none, DEFAULT_FRAUD_THRESHOLD⟩

-- load_models (lines 27-64): sequential assignment inside try, with the two
-- except clauses returning (False, message).  The regressor is assigned
-- before the classifier load is attempted, so a classifier failure leaves
-- the regressor slot filled but the manager still not ready.
def load_models (m : ModelManager) (regLoad : LoadResult Artifact)
    (clsLoad : LoadResult ClassifierBundle) : ModelManager × Bool × String :=
  match regLoad with
  | .fileNotFound e => (m, false, "Model file not found: " ++ e)
  | .failed e => (m, false, "Error loading models: " ++ e)
  | .ok reg =>
    let m1 := { m with regressor_model := some reg }
    match clsLoad with
    | .fileNotFound e => (m1, false, "Model file not found: " ++ e)
    | .failed e => (m1, false, "Error loading models: " ++ e)
    | .ok bundle =>
      match bundle.pipeline with
      | none =>
        (m1, false, "Error loading models: KeyError pipeline")
      | some pipe =>
        ({ m1 with classifier_model := some pipe,
                   fraud_threshold := bundle.threshold.getD DEFAULT_FRAUD_THRESHOLD },
         true, "Models loaded successfully")

-- are_models_loaded (lines 66-76)
def are_models_loaded (m : ModelManager) : Bool :=
  m.regressor_model.isSome && m.classifier_model.isSome

-- get_threshold (lines 96-103)
def get_threshold (m : ModelManager) : ℚ :=
  m.fraud_threshold

-- Concrete inputs used by witnesses.
def car0 : CarInput :=
  ⟨"VW", "Golf", 2019, 0, "Diesel", "Manual", 115, 14500, "Used"⟩

-- ============================================================
-- Helper lemmas
-- ============================================================

theorem string_append_ne_nil (a b : String) (h : a.length ≠ 0) : a ++ b ≠ "" := by
  intro hab
  apply h
  have h2 := congrArg String.length hab
  rw [String.length_append] at h2
  simp at h2
  omega

theorem pyRoundQ_nonneg (q : ℚ) (h : 0 ≤ q) : 0 ≤ pyRoundQ q := by
  have hf : 0 ≤ ⌊q⌋ := Int.floor_nonneg.mpr h
  unfold pyRoundQ
  split_ifs <;> omega

theorem pyRoundQ_le_of_le (q : ℚ) (b : ℤ) (h : q ≤ (b : ℚ)) : pyRoundQ q ≤ b := by
  have hfb : ⌊q⌋ ≤ b := by
    have h2 := Int.floor_le_floor h
    simpa using h2
  have hfl : (⌊q⌋ : ℚ) ≤ q := Int.floor_le q
  unfold pyRoundQ
  split_ifs with h1 h2 h3
  · exact hfb
  · have hlt : (⌊q⌋ : ℚ) < q := by push_neg at h1; linarith
    have hb2 : ⌊q⌋ < b := by exact_mod_cast lt_of_lt_of_le hlt h
    omega
  · exact hfb
  · have hlt : (⌊q⌋ : ℚ) < q := by push_neg at h1; linarith
    have hb2 : ⌊q⌋ < b := by exact_mod_cast lt_of_lt_of_le hlt h
    omega

theorem int_expm1_zero : int_expm1 0 = 0 := by
  unfold int_expm1 pyIntR
  rw [Real.exp_zero]
  norm_num

-- ============================================================
-- Claims
-- ============================================================

/-- Claim C1, counterexample: the source computes
fraud_score = int(round(fraud_prob * 100)) with no clamping, so a
misbehaving classification artifact returning probability 3/2 yields the
score 150, outside [0, 100]. -/
theorem C1_counterexample :
    fraud_score_of (3/2) = 150 ∧ ¬ fraud_score_of (3/2) ≤ 100 := by
  constructor
  · norm_num [fraud_score_of, pyRoundQ]
  · norm_num [fraud_score_of, pyRoundQ]

/-- Claim C1, amended: the fraud score equals round(probability × 100)
(Python half-to-even rounding) and lies within [0, 100] whenever the
probability honours its [0, 1] contract; the code does not clamp, so an
out-of-range probability produces an out-of-range score. -/
theorem C1_amended (p : ℚ) (h0 : 0 ≤ p) (h1 : p ≤ 1) :
    fraud_score_of p = pyRoundQ (p * 100)
    ∧ 0 ≤ fraud_score_of p ∧ fraud_score_of p ≤ 100 := by
  refine ⟨rfl, pyRoundQ_nonneg _ (by positivity), pyRoundQ_le_of_le _ 100 ?_⟩
  push_cast
  linarith

/-- Claim C1 amended, witness at probability 1/2. -/
theorem C1_amended_witness :
    (0 : ℚ) ≤ 1/2 ∧ (1/2 : ℚ) ≤ 1
    ∧ (fraud_score_of (1/2) = pyRoundQ (1/2 * 100)
       ∧ 0 ≤ fraud_score_of (1/2) ∧ fraud_score_of (1/2) ≤ 100) :=
  ⟨by norm_num, by norm_num, C1_amended (1/2) (by norm_num) (by norm_num)⟩

/-- Claim C2: the expected_km value computed by check_fraud,
int(expm1(predicted_log)), is non-negative for every log-space prediction,
including negative ones: expm1 always exceeds −1 and Python int truncates
toward zero, so no explicit flooring is needed. -/
theorem C2_expected_km_nonneg (x : ℝ) : 0 ≤ int_expm1 x := by
  unfold int_expm1 pyIntR
  split_ifs with h
  · exact Int.floor_nonneg.mpr h
  · have h1 : (-1 : ℝ) < Real.exp x - 1 := by
      have := Real.exp_pos x
      linarith
    have h2 : (-1 : ℤ) < ⌈Real.exp x - 1⌉ := by
      apply Int.lt_ceil.mpr
      exact_mod_cast h1
    omega

/-- Claim C2, witness: the theorem applied at the concrete log-space
prediction 0 gives a non-negative expected mileage. -/
theorem C2_witness : 0 ≤ int_expm1 0 :=
  C2_expected_km_nonneg 0

/-- Claim C3, counterexample: at smart_ratio = 339/500 = 0.678 the emitted
percentage is int(0.678 × 100) = 67 (truncation), while
round(0.678 × 100) = 68, so the cited percentage is not the rounded one. -/
theorem C3_counterexample :
    generate_reasons (339/500) 0 1000 false = [Reason.ratioSuspicious 67 1000]
    ∧ pyRoundQ ((339/500 : ℚ) * 100) = 68
    ∧ generate_reasons (339/500) 0 1000 false
        ≠ [Reason.ratioSuspicious (pyRoundQ ((339/500 : ℚ) * 100)) 1000] := by
  have hg : generate_reasons (339/500) 0 1000 false
      = [Reason.ratioSuspicious 67 1000] := by
    norm_num [generate_reasons, SUSPICIOUS_RATIO_THRESHOLD, MARKET_DIFF_THRESHOLD,
      pyIntQ]
  have hr : pyRoundQ ((339/500 : ℚ) * 100) = 68 := by
    norm_num [pyRoundQ]
  refine ⟨hg, hr, ?_⟩
  rw [hg, hr]
  simp

/-- Claim C3, amended: whenever smart_ratio < 0.70 the first emitted reason
cites the percentage int(smart_ratio × 100) — truncation toward zero of the
real-valued product, not rounding — of the expected kilometres. -/
theorem C3_amended (sr : ℚ) (md ek : ℤ) (s : Bool)
    (h : sr < SUSPICIOUS_RATIO_THRESHOLD) :
    (generate_reasons sr md ek s).head?
      = some (Reason.ratioSuspicious (pyIntQ (sr * 100)) ek) := by
  simp only [generate_reasons, if_pos h]
  split_ifs <;> simp

/-- Claim C3 amended, witness at smart_ratio 1/2. -/
theorem C3_amended_witness :
    (1/2 : ℚ) < SUSPICIOUS_RATIO_THRESHOLD
    ∧ (generate_reasons (1/2) 0 5 false).head?
        = some (Reason.ratioSuspicious (pyIntQ ((1/2 : ℚ) * 100)) 5) :=
  ⟨by norm_num [SUSPICIOUS_RATIO_THRESHOLD],
   C3_amended (1/2) 0 5 false (by norm_num [SUSPICIOUS_RATIO_THRESHOLD])⟩

/-- Claim C4: whenever is_suspicious is true the returned reasons list is
non-empty, and when neither the ratio rule nor the market-diff rule fired
the list is exactly the single generic complex-anomaly reason. -/
theorem C4_suspicious_has_reasons (sr : ℚ) (md ek : ℤ) :
    generate_reasons sr md ek true ≠ []
    ∧ (¬ sr < SUSPICIOUS_RATIO_THRESHOLD → ¬ md < MARKET_DIFF_THRESHOLD →
        generate_reasons sr md ek true = [Reason.complexAnomaly]) := by
  constructor
  · simp only [generate_reasons]
    split_ifs <;> simp_all
  · intro h1 h2
    simp [generate_reasons, h1, h2]

/-- Claim C4, witness: with both rules silent and is_suspicious true the
result is the single generic reason, hence non-empty. -/
theorem C4_witness :
    generate_reasons 1 0 5 true ≠ []
    ∧ generate_reasons 1 0 5 true = [Reason.complexAnomaly] :=
  ⟨(C4_suspicious_has_reasons 1 0 5).1,
   (C4_suspicious_has_reasons 1 0 5).2
     (by norm_num [SUSPICIOUS_RATIO_THRESHOLD])
     (by norm_num [MARKET_DIFF_THRESHOLD])⟩

/-- Claim C5: check_fraud's suspicion flag, is_suspicious_of, is true exactly
when the probability is at least the threshold, and a probability exactly
equal to the threshold is flagged. -/
theorem C5_threshold_inclusive (p t : ℚ) :
    (is_suspicious_of p t = true ↔ t ≤ p) ∧ is_suspicious_of t t = true := by
  constructor
  · simp [is_suspicious_of, ge_iff_le]
  · simp [is_suspicious_of]

/-- Claim C6: when both the ratio rule and the market-diff rule fire, the
output is exactly the ratio-based reason followed by the market-diff reason,
and the spec's end-to-end example (reported 40000 vs expected 150000, ratio
4/15 ≈ 0.267, diff −110000) produces both reasons in that order. -/
theorem C6_rule_order (sr : ℚ) (md ek : ℤ) (s : Bool)
    (h1 : sr < SUSPICIOUS_RATIO_THRESHOLD) (h2 : md < MARKET_DIFF_THRESHOLD) :
    generate_reasons sr md ek s
      = [Reason.ratioSuspicious (pyIntQ (sr * 100)) ek, Reason.belowMarket |md|]
    ∧ generate_reasons (smartRatioOf 40000 150000)
        (market_km_diff_of 40000 150000) 150000 s
      = [Reason.ratioSuspicious 26 150000, Reason.belowMarket 110000] := by
  constructor
  · simp [generate_reasons, h1, h2]
  · cases s <;>
      norm_num [generate_reasons, smartRatioOf, market_km_diff_of,
        SUSPICIOUS_RATIO_THRESHOLD, MARKET_DIFF_THRESHOLD, pyIntQ]

/-- Claim C6, witness at smart_ratio 1/2 and market diff −40000, where both
rules fire and the two reasons come out in rule order. -/
theorem C6_witness :
    (1/2 : ℚ) < SUSPICIOUS_RATIO_THRESHOLD
    ∧ (-40000 : ℤ) < MARKET_DIFF_THRESHOLD
    ∧ (generate_reasons (1/2) (-40000) 10 true
        = [Reason.ratioSuspicious (pyIntQ ((1/2 : ℚ) * 100)) 10,
           Reason.belowMarket |(-40000 : ℤ)|]
       ∧ generate_reasons (smartRatioOf 40000 150000)
          (market_km_diff_of 40000 150000) 150000 true
        = [Reason.ratioSuspicious 26 150000, Reason.belowMarket 110000]) :=
  ⟨by norm_num [SUSPICIOUS_RATIO_THRESHOLD],
   by norm_num [MARKET_DIFF_THRESHOLD],
   C6_rule_order (1/2) (-40000) 10 true
     (by norm_num [SUSPICIOUS_RATIO_THRESHOLD])
     (by norm_num [MARKET_DIFF_THRESHOLD])⟩

/-- Claim C7: with the regression outputs fixed, a strictly larger reported
mileage strictly increases both smart_ratio (denominator max(1, expected_km)
is positive) and market_km_diff. -/
theorem C7_monotone (ek r1 r2 : ℤ) (h : r1 < r2) :
    smartRatioOf r1 ek < smartRatioOf r2 ek
    ∧ market_km_diff_of r1 ek < market_km_diff_of r2 ek := by
  constructor
  · unfold smartRatioOf
    have hd : (0 : ℚ) < ((max 1 ek : ℤ) : ℚ) := by
      have h1 : (1 : ℤ) ≤ max 1 ek := le_max_left 1 ek
      exact_mod_cast lt_of_lt_of_le zero_lt_one h1
    have hr : (r1 : ℚ) < (r2 : ℚ) := by exact_mod_cast h
    exact div_lt_div_of_pos_right hr hd
  · unfold market_km_diff_of
    omega

/-- Claim C7, witness at reported 5 < 10 against expected 20. -/
theorem C7_witness :
    (5 : ℤ) < 10
    ∧ (smartRatioOf 5 20 < smartRatioOf 10 20
       ∧ market_km_diff_of 5 20 < market_km_diff_of 10 20) :=
  ⟨by norm_num, C7_monotone 20 5 10 (by norm_num)⟩

/-- Claim C8: load_models is a total function (it never raises); whenever it
reports failure from the initial registry state, the message is non-empty,
the registry is not ready, and the threshold is still the default 1/2; and
are_models_loaded holds exactly when both artifacts are held. -/
theorem C8_load_failure (regLoad : LoadResult Artifact)
    (clsLoad : LoadResult ClassifierBundle)
    (h : (load_models initModelManager regLoad clsLoad).2.1 = false) :
    (load_models initModelManager regLoad clsLoad).2.2 ≠ ""
    ∧ are_models_loaded (load_models initModelManager regLoad clsLoad).1 = false
    ∧ get_threshold (load_models initModelManager regLoad clsLoad).1
        = DEFAULT_FRAUD_THRESHOLD
    ∧ (∀ mm : ModelManager,
        are_models_loaded mm
          = (mm.regressor_model.isSome && mm.classifier_model.isSome)) := by
  refine ?_
  cases regLoad with
  | fileNotFound e =>
    exact ⟨string_append_ne_nil _ _ (by decide),
      by simp [load_models, are_models_loaded, initModelManager],
      by simp [load_models, get_threshold, initModelManager],
      fun mm => rfl⟩
  | failed e =>
    exact ⟨string_append_ne_nil _ _ (by decide),
      by simp [load_models, are_models_loaded, initModelManager],
      by simp [load_models, get_threshold, initModelManager],
      fun mm => rfl⟩
  | ok reg =>
    cases clsLoad with
    | fileNotFound e =>
      exact ⟨string_append_ne_nil _ _ (by decide),
        by simp [load_models, are_models_loaded, initModelManager],
        by simp [load_models, get_threshold, initModelManager],
        fun mm => rfl⟩
    | failed e =>
      exact ⟨string_append_ne_nil _ _ (by decide),
        by simp [load_models, are_models_loaded, initModelManager],
        by simp [load_models, get_threshold, initModelManager],
        fun mm => rfl⟩
    | ok bundle =>
      obtain ⟨pipe, thr⟩ := bundle
      cases pipe with
      | none =>
        exact ⟨by simp [load_models],
          by simp [load_models, are_models_loaded, initModelManager],
          by simp [load_models, get_threshold, initModelManager],
          fun mm => rfl⟩
      | some p =>
        exfalso
        simp [load_models] at h

/-- Claim C8, witness: loading with a missing regressor file reports failure
with a non-empty message, leaves the registry not ready and the threshold at
its default. -/
theorem C8_witness :
    (load_models initModelManager (LoadResult.fileNotFound ("missing"))
      (LoadResult.fileNotFound ("missing"))).2.2 ≠ ""
    ∧ are_models_loaded (load_models initModelManager
        (LoadResult.fileNotFound ("missing"))
        (LoadResult.fileNotFound ("missing"))).1 = false
    ∧ get_threshold (load_models initModelManager
        (LoadResult.fileNotFound ("missing"))
        (LoadResult.fileNotFound ("missing"))).1 = DEFAULT_FRAUD_THRESHOLD
    ∧ (∀ mm : ModelManager,
        are_models_loaded mm
          = (mm.regressor_model.isSome && mm.classifier_model.isSome)) :=
  C8_load_failure (LoadResult.fileNotFound ("missing"))
    (LoadResult.fileNotFound ("missing")) rfl

/-- Claim C9: generate_reasons never returns more than two reasons, and the
generic complex-anomaly reason only ever appears as the sole element. -/
theorem C9_reason_invariants (sr : ℚ) (md ek : ℤ) (s : Bool) :
    (generate_reasons sr md ek s).length ≤ 2
    ∧ (Reason.complexAnomaly ∈ generate_reasons sr md ek s →
        generate_reasons sr md ek s = [Reason.complexAnomaly]) := by
  simp only [generate_reasons]
  split_ifs <;> simp_all

/-- Claim C9, witness: with both rules silent and the flag set, the single
generic reason appears alone and the length bound holds. -/
theorem C9_witness :
    (generate_reasons 1 0 1 true).length ≤ 2
    ∧ generate_reasons 1 0 1 true = [Reason.complexAnomaly] :=
  ⟨(C9_reason_invariants 1 0 1 true).1,
   (C9_reason_invariants 1 0 1 true).2 (by
     norm_num [generate_reasons, SUSPICIOUS_RATIO_THRESHOLD,
       MARKET_DIFF_THRESHOLD])⟩

/-- Claim C10: the response constructor rejects (returns none, modelling the
pydantic ValidationError) any fraud_score outside [0, 100] or negative
expected_km instead of clamping, and every response check_fraud actually
returns satisfies 0 ≤ fraud_score ≤ 100 and 0 ≤ expected_km. -/
theorem C10_validation :
    (∀ (fs ek : ℤ) (s : Bool) (rs : List Reason),
        fs < 0 ∨ 100 < fs ∨ ek < 0 → mkFraudCheckResponse fs s ek rs = none)
    ∧ (∀ (regPredict : RegInput → ℝ) (classProba : ClassInput → ℚ)
        (t : ℚ) (cy : ℤ) (car : CarInput) (resp : FraudCheckResponse),
        check_fraud regPredict classProba t cy car = some resp →
        0 ≤ resp.fraud_score ∧ resp.fraud_score ≤ 100 ∧ 0 ≤ resp.expected_km) := by
  constructor
  · intro fs ek s rs h
    unfold mkFraudCheckResponse
    split_ifs with hv
    · exfalso
      obtain ⟨a, b, c⟩ := hv
      rcases h with h | h | h <;> omega
    · rfl
  · intro regPredict classProba t cy car resp h
    simp only [check_fraud] at h
    unfold mkFraudCheckResponse at h
    split_ifs at h with hv
    obtain ⟨a, b, c⟩ := hv
    injection h with h2
    subst h2
    exact ⟨a, b, c⟩

/-- Claim C10, witness: an out-of-range score of 150 is rejected by the
response constructor, and a concrete successful check_fraud run returns
in-range values. -/
theorem C10_witness :
    mkFraudCheckResponse 150 true 0 [] = none
    ∧ (0 ≤ (FraudCheckResponse.mk 50 true 0
          [Reason.ratioSuspicious 0 0]).fraud_score
       ∧ (FraudCheckResponse.mk 50 true 0
          [Reason.ratioSuspicious 0 0]).fraud_score ≤ 100
       ∧ 0 ≤ (FraudCheckResponse.mk 50 true 0
          [Reason.ratioSuspicious 0 0]).expected_km) :=
  ⟨C10_validation.1 150 0 true [] (by omega),
   C10_validation.2 (fun _ => 0) (fun _ => 1/2) (1/2) 2025 car0
     (FraudCheckResponse.mk 50 true 0 [Reason.ratioSuspicious 0 0]) (by
       simp only [check_fraud, car0, int_expm1_zero]
       norm_num [smartRatioOf, market_km_diff_of, fraud_score_of,
         is_suspicious_of, generate_reasons, pyIntQ, pyRoundQ,
         mkFraudCheckResponse, SUSPICIOUS_RATIO_THRESHOLD,
         MARKET_DIFF_THRESHOLD])⟩
